import Mathlib

/-!
Shallow embedding of `src/Resources/ai_worker.py` (repository MacMind).

The program is a command-line adapter: `main` inspects `sys.argv`, and when
the first argument (index 1 of `argv`, after the program name) lowercases to
`"ollama"` it joins the remaining arguments with single spaces and hands the
resulting prompt to `ollama_chat`, which performs a single backend call and
prints the reply (success) or a diagnostic (failure).

The backend (the `ollama.chat` library call) is external; it is modelled as a
function from the request it receives to either the reply message content
(`Except.ok`) or the message of the raised exception (`Except.error`).
A run result records the text written to standard output and to standard
error, and the list of requests submitted to the backend during the run.
-/

namespace AiWorker

/-- One entry of the `messages` list passed to the backend
(the dictionary `{"role": ..., "content": ...}` in the source). -/
structure ChatMessage where
  role : String
  content : String
  deriving Repr, DecidableEq

/-- The data crossing the external boundary in the single `chat(...)` call:
a model identifier and an ordered list of messages. -/
structure ChatRequest where
  model : String
  messages : List ChatMessage
  deriving Repr, DecidableEq

/-- The external backend: given the request, it either returns the textual
content of the generated message (`response.message.content` in the source)
or raises an error carrying a message string. -/
def Backend : Type := ChatRequest → Except String String

/-- Observable effects of one process invocation: everything written to
standard output, everything written to standard error, and the sequence of
requests submitted to the backend. -/
structure RunResult where
  stdout : String
  stderr : String
  calls : List ChatRequest
  deriving Repr, DecidableEq

/-- The hardcoded default of the `model` parameter of `ollama_chat`. -/
def defaultModel : String := "deepseek-r1:1.5b"

/-- The request `ollama_chat` builds: the given model identifier and the
single-entry message list `[{"role": "user", "content": prompt_text}]`. -/
def mkRequest (prompt_text : String) (model : String) : ChatRequest :=
  { model := model, messages := [{ role := "user", content := prompt_text }] }

/-- Embedding of `ollama_chat(prompt_text, model)`: build the single-message
request, submit it, and on success print the content followed by a newline
to standard output, on failure write the formatted diagnostic to standard
error. The caught exception never propagates (the embedding is total). -/
def ollama_chat (backend : Backend) (prompt_text : String) (model : String) :
    RunResult :=
  match backend (mkRequest prompt_text model) with
  | Except.ok content =>
      { stdout := content ++ "\n", stderr := "",
        calls := [mkRequest prompt_text model] }
  | Except.error e =>
      { stdout := "", stderr := "Error in ollama_chat: " ++ e ++ "\n",
        calls := [mkRequest prompt_text model] }

/-- The exact usage string of the source. -/
def usageMsg : String := "Usage: ai_worker.py ollama <prompt_text>\n"

/-- The exact unknown-command string of the source. -/
def unknownMsg : String := "Unknown command. Use: ai_worker.py ollama <prompt_text>\n"

/-- Embedding of the `.lower()` call on `sys.argv[1]`: lowercase the string
character by character (`Char.toLower` maps the uppercase ASCII letters to
their lowercase forms and leaves every other character unchanged, as the
Python method does on the ASCII range). -/
def lower (s : String) : String := String.mk (s.data.map Char.toLower)

/-- Embedding of `main()`. `argv` is the full `sys.argv`, program name at
index 0 included, so `argv.length < 3` is the source condition
`len(sys.argv) < 3` and `argv.getD 1 ""` is `sys.argv[1]` (the index is in
range whenever that branch is reached). The source calls `ollama_chat`
with its default model argument; the intermediate binding `command` of the
source is inlined into the comparison. -/
def main (backend : Backend) (argv : List String) : RunResult :=
  if argv.length < 3 then
    { stdout := "", stderr := usageMsg, calls := [] }
  else if lower (argv.getD 1 ("")) = "ollama" then
    ollama_chat backend (String.intercalate (" ") (argv.drop 2)) defaultModel
  else
    { stdout := "", stderr := unknownMsg, calls := [] }

/-! Helper lemmas shared by the claim theorems. -/

/-- `ollama_chat` always submits exactly the single-message request it
builds, whatever the backend answers. -/
theorem ollama_chat_calls (backend : Backend) (p m : String) :
    (ollama_chat backend p m).calls = [mkRequest p m] := by
  unfold ollama_chat
  rcases hb : backend (mkRequest p m) with e | c <;> rfl

/-- On the chat path (enough arguments, first argument lowercasing to
`"ollama"`), `main` is exactly `ollama_chat` on the space-joined trailing
arguments with the default model. -/
theorem main_chat_path (backend : Backend) (argv : List String)
    (hlen : 3 ≤ argv.length) (hcmd : lower (argv.getD 1 ("")) = "ollama") :
    main backend argv
      = ollama_chat backend (String.intercalate (" ") (argv.drop 2))
          defaultModel := by
  unfold main
  rw [if_neg (by omega), if_pos hcmd]

/-! Claim theorems. -/

/-- C1: for every invocation that reaches the chat path (at least a command
and one prompt token, first argument lowercasing to `"ollama"`), if the
backend returns a response whose message content is `c`, the program writes
exactly `c` followed by one newline to standard output and writes nothing
to standard error. -/
theorem success_prints_content_only (backend : Backend) (argv : List String)
    (c : String) (hlen : 3 ≤ argv.length)
    (hcmd : lower (argv.getD 1 ("")) = "ollama")
    (hok : ∀ req, backend req = Except.ok c) :
    (main backend argv).stdout = c ++ "\n" ∧
      (main backend argv).stderr = "" := by
  rw [main_chat_path backend argv hlen hcmd]
  unfold ollama_chat
  rw [hok]
  exact ⟨rfl, rfl⟩

/-- Witness for C1: the mocked success run of P5. -/
theorem success_prints_content_only_w :
    (main (fun _ => Except.ok ("4")) ["ai_worker.py", "ollama", "2+2?"]).stdout
        = "4" ++ "\n" ∧
      (main (fun _ => Except.ok ("4"))
          ["ai_worker.py", "ollama", "2+2?"]).stderr = "" :=
  success_prints_content_only (fun _ => Except.ok ("4"))
    ["ai_worker.py", "ollama", "2+2?"] ("4") (by decide) (by decide)
    (fun _ => rfl)

/-- C2: for every invocation that reaches the chat operation, if the
backend raises an error whose message is `m`, the program writes nothing to
standard output and writes exactly `"Error in ollama_chat: "` followed by
`m` and a newline to standard error (and returns normally: the embedding is
total, the exception is consumed at the call site). -/
theorem failure_reports_on_stderr (backend : Backend) (argv : List String)
    (m : String) (hlen : 3 ≤ argv.length)
    (hcmd : lower (argv.getD 1 ("")) = "ollama")
    (herr : ∀ req, backend req = Except.error m) :
    (main backend argv).stdout = "" ∧
      (main backend argv).stderr = "Error in ollama_chat: " ++ m ++ "\n" := by
  rw [main_chat_path backend argv hlen hcmd]
  unfold ollama_chat
  rw [herr]
  exact ⟨rfl, rfl⟩

/-- Witness for C2: the mocked failure run of P6. -/
theorem failure_reports_on_stderr_w :
    (main (fun _ => Except.error ("connection refused"))
        ["ai_worker.py", "ollama", "hi"]).stdout = "" ∧
      (main (fun _ => Except.error ("connection refused"))
          ["ai_worker.py", "ollama", "hi"]).stderr
        = "Error in ollama_chat: " ++ "connection refused" ++ "\n" :=
  failure_reports_on_stderr (fun _ => Except.error ("connection refused"))
    ["ai_worker.py", "ollama", "hi"] ("connection refused") (by decide)
    (by decide) (fun _ => rfl)

/-- C3: with fewer than two arguments after the program name
(`len(sys.argv) < 3`), the program writes nothing to standard output,
writes the usage message to standard error, performs no backend call, and
terminates normally. -/
theorem usage_floor (backend : Backend) (argv : List String)
    (hlen : argv.length < 3) :
    (main backend argv).stdout = "" ∧
      (main backend argv).stderr = usageMsg ∧
      (main backend argv).calls = [] := by
  unfold main
  rw [if_pos hlen]
  exact ⟨rfl, rfl, rfl⟩

/-- Witness for C3: invocation with no argument after the program name. -/
theorem usage_floor_w :
    (main (fun _ => Except.ok ("4")) ["ai_worker.py"]).stdout = "" ∧
      (main (fun _ => Except.ok ("4")) ["ai_worker.py"]).stderr = usageMsg ∧
      (main (fun _ => Except.ok ("4")) ["ai_worker.py"]).calls = [] :=
  usage_floor (fun _ => Except.ok ("4")) ["ai_worker.py"] (by decide)

/-- C4: with at least two arguments whose first does not lowercase to
`"ollama"`, the program writes nothing to standard output, writes exactly
the unknown-command message to standard error, performs no backend call,
and terminates normally. -/
theorem unknown_command_rejected (backend : Backend) (argv : List String)
    (hlen : 3 ≤ argv.length)
    (hcmd : lower (argv.getD 1 ("")) ≠ "ollama") :
    (main backend argv).stdout = "" ∧
      (main backend argv).stderr
          = "Unknown command. Use: ai_worker.py ollama <prompt_text>\n" ∧
      (main backend argv).calls = [] := by
  unfold main
  rw [if_neg (by omega), if_neg hcmd]
  exact ⟨rfl, rfl, rfl⟩

/-- Witness for C4: first argument `"chat"` as in P4. -/
theorem unknown_command_rejected_w :
    (main (fun _ => Except.ok ("4")) ["ai_worker.py", "chat", "hi"]).stdout
        = "" ∧
      (main (fun _ => Except.ok ("4")) ["ai_worker.py", "chat", "hi"]).stderr
        = "Unknown command. Use: ai_worker.py ollama <prompt_text>\n" ∧
      (main (fun _ => Except.ok ("4")) ["ai_worker.py", "chat", "hi"]).calls
        = [] :=
  unknown_command_rejected (fun _ => Except.ok ("4"))
    ["ai_worker.py", "chat", "hi"] (by decide) (by decide)

/-- C5: on the chat path, the prompt submitted to the backend is exactly
the trailing arguments (everything after the command) joined with single
spaces, each argument verbatim. -/
theorem prompt_is_space_joined (backend : Backend) (argv : List String)
    (hlen : 3 ≤ argv.length)
    (hcmd : lower (argv.getD 1 ("")) = "ollama") :
    (main backend argv).calls.map
        (fun r => r.messages.map (fun msg => msg.content))
      = [[String.intercalate (" ") (argv.drop 2)]] := by
  rw [main_chat_path backend argv hlen hcmd, ollama_chat_calls]
  rfl

/-- Witness for C5: the P3 argument list `["what", "is", "2+2?"]`. -/
theorem prompt_is_space_joined_w :
    (main (fun _ => Except.ok ("4"))
        ["ai_worker.py", "ollama", "what", "is", "2+2?"]).calls.map
          (fun r => r.messages.map (fun msg => msg.content))
      = [[String.intercalate (" ")
            (["ai_worker.py", "ollama", "what", "is", "2+2?"].drop 2)]] :=
  prompt_is_space_joined (fun _ => Except.ok ("4"))
    ["ai_worker.py", "ollama", "what", "is", "2+2?"] (by decide) (by decide)

/-- C6: two invocations differing only in the letter case of the first
argument, both lowercasing to `"ollama"`, behave identically; when at least
one prompt token follows they both take the chat path with the same
submitted prompt and model. -/
theorem case_insensitive_dispatch (backend : Backend) (prog a b : String)
    (rest : List String) (ha : lower a = "ollama") (hb : lower b = "ollama") :
    main backend (prog :: a :: rest) = main backend (prog :: b :: rest) ∧
      (rest ≠ [] →
        (main backend (prog :: a :: rest)).calls
          = [mkRequest (String.intercalate (" ") rest) defaultModel]) := by
  rcases rest with - | ⟨r, rs⟩
  · constructor
    · rfl
    · intro hne
      exact absurd rfl hne
  · have hlen : 3 ≤ (prog :: a :: r :: rs).length := by
      simp [List.length]
    have hlen' : 3 ≤ (prog :: b :: r :: rs).length := by
      simp [List.length]
    have hga : lower ((prog :: a :: r :: rs).getD 1 ("")) = "ollama" := ha
    have hgb : lower ((prog :: b :: r :: rs).getD 1 ("")) = "ollama" := hb
    constructor
    · rw [main_chat_path backend _ hlen hga, main_chat_path backend _ hlen' hgb]
      rfl
    · intro hne
      rw [main_chat_path backend _ hlen hga, ollama_chat_calls]
      rfl

/-- Witness for C6: first arguments `"OLLAMA"` and `"Ollama"` over the same
prompt. -/
theorem case_insensitive_dispatch_w :
    (main (fun _ => Except.ok ("4")) ["ai_worker.py", "OLLAMA", "hi"]
        = main (fun _ => Except.ok ("4")) ["ai_worker.py", "Ollama", "hi"]) ∧
      (["hi"] ≠ ([] : List String) →
        (main (fun _ => Except.ok ("4"))
            ["ai_worker.py", "OLLAMA", "hi"]).calls
          = [mkRequest (String.intercalate (" ") ["hi"]) defaultModel]) :=
  case_insensitive_dispatch (fun _ => Except.ok ("4")) ("ai_worker.py")
    ("OLLAMA") ("Ollama") ["hi"] (by decide) (by decide)

/-- C7: the chat operation submits exactly one message, with role `"user"`
and content equal to the prompt text, for any model identifier; and on the
command-line chat path the submitted model is the default
`"deepseek-r1:1.5b"`. -/
theorem single_user_message_default_model (backend : Backend)
    (prompt model : String) (argv : List String) (hlen : 3 ≤ argv.length)
    (hcmd : lower (argv.getD 1 ("")) = "ollama") :
    (ollama_chat backend prompt model).calls
        = [{ model := model,
             messages := [{ role := "user", content := prompt }] }] ∧
      (main backend argv).calls.map (fun r => r.model)
        = ["deepseek-r1:1.5b"] := by
  constructor
  · exact ollama_chat_calls backend prompt model
  · rw [main_chat_path backend argv hlen hcmd, ollama_chat_calls]
    rfl

/-- Witness for C7 at a concrete prompt, model and argument list. -/
theorem single_user_message_default_model_w :
    (ollama_chat (fun _ => Except.ok ("4")) ("hi") ("mistral")).calls
        = [{ model := "mistral",
             messages := [{ role := "user", content := "hi" }] }] ∧
      (main (fun _ => Except.ok ("4"))
          ["ai_worker.py", "ollama", "hi"]).calls.map (fun r => r.model)
        = ["deepseek-r1:1.5b"] :=
  single_user_message_default_model (fun _ => Except.ok ("4")) ("hi")
    ("mistral") ["ai_worker.py", "ollama", "hi"] (by decide) (by decide)

/-- C8: whatever the arguments and the backend, standard output carries
either nothing at all or exactly the content the backend returned for the
single submitted request plus one trailing newline; diagnostics never reach
standard output. -/
theorem stdout_reply_or_nothing (backend : Backend) (argv : List String) :
    (main backend argv).stdout = "" ∨
      ∃ req c, backend req = Except.ok c ∧
        (main backend argv).calls = [req] ∧
        (main backend argv).stdout = c ++ "\n" := by
  unfold main
  by_cases h1 : argv.length < 3
  · rw [if_pos h1]
    exact Or.inl rfl
  · rw [if_neg h1]
    by_cases h2 : lower (argv.getD 1 ("")) = "ollama"
    · rw [if_pos h2]
      unfold ollama_chat
      rcases hb : backend (mkRequest (String.intercalate (" ") (argv.drop 2))
          defaultModel) with e | c
      · exact Or.inl rfl
      · exact Or.inr
          ⟨mkRequest (String.intercalate (" ") (argv.drop 2)) defaultModel,
            c, hb, rfl, rfl⟩
    · rw [if_neg h2]
      exact Or.inl rfl

/-- C9: the run is a pure function of the argument list and the backend:
any two runs with the same arguments against the same (deterministic)
backend produce identical standard-output and standard-error text. -/
theorem runs_are_reproducible (backend : Backend) (argv : List String)
    (r1 r2 : RunResult) (h1 : r1 = main backend argv)
    (h2 : r2 = main backend argv) :
    r1.stdout = r2.stdout ∧ r1.stderr = r2.stderr := by
  subst h1
  subst h2
  exact ⟨rfl, rfl⟩

/-- Witness for C9: two runs at a concrete backend and argument list. -/
theorem runs_are_reproducible_w :
    (main (fun _ => Except.ok ("4")) ["ai_worker.py", "ollama", "hi"]).stdout
        = (main (fun _ => Except.ok ("4"))
            ["ai_worker.py", "ollama", "hi"]).stdout ∧
      (main (fun _ => Except.ok ("4")) ["ai_worker.py", "ollama", "hi"]).stderr
        = (main (fun _ => Except.ok ("4"))
            ["ai_worker.py", "ollama", "hi"]).stderr :=
  runs_are_reproducible (fun _ => Except.ok ("4"))
    ["ai_worker.py", "ollama", "hi"] _ _ rfl rfl

/-- C10: the usage message written when fewer than two arguments follow the
program name is exactly `"Usage: ai_worker.py ollama <prompt_text>\n"`. -/
theorem usage_message_exact (backend : Backend) (argv : List String)
    (hlen : argv.length < 3) :
    (main backend argv).stderr
      = "Usage: ai_worker.py ollama <prompt_text>\n" := by
  unfold main
  rw [if_pos hlen]
  rfl

/-- Witness for C10: invocation with one argument after the program name. -/
theorem usage_message_exact_w :
    (main (fun _ => Except.ok ("4")) ["ai_worker.py", "ollama"]).stderr
      = "Usage: ai_worker.py ollama <prompt_text>\n" :=
  usage_message_exact (fun _ => Except.ok ("4")) ["ai_worker.py", "ollama"]
    (by decide)

end AiWorker
